import Mathlib

/-!
Verification of the houseprices repository's price-estimation component
(`src/main.py`) against its specification.

The repository's sole computational component is a Flet GUI whose
"AI予想 (Prediction)" tab fits a scikit-learn `RandomForestRegressor` at
startup on five features of the Ames Housing CSV and, on each button
press (`on_predict_click`), parses the text inputs, predicts a price and
renders a feature-importance breakdown.

Shallow embedding conventions:
* Python floats are idealised as rationals (`ℚ`).
* `float(s)` on a text field is embedded as an `Option ℚ` (the parse
  result); `None` is the `ValueError` branch of the handler's
  `try/except`.
* The fitted random forest is embedded as a list of decision trees over
  the five features; scikit-learn's fit is not re-implemented, instead
  its documented output shape is captured by the predicate `Fitted`:
  every leaf of every tree predicts an average of training targets, and
  `feature_importances_` is a non-negative vector of length 5 summing
  to 1.
* The deterministic weighted-sum pricing variant named by the spec is
  not present under `src/`; it is modelled from the spec's words
  (definitions marked `Modelled from the spec:`).
-/

/-- The five numeric inputs of one estimation request, in the order the
handler builds `input_val = [[area, year, qual, garage, bsmt]]`
(matching `features = [GrLivArea, YearBuilt, OverallQual, GarageCars,
TotalBsmtSF]`). -/
structure FeatureVector where
  grLivArea : ℚ
  yearBuilt : ℚ
  overallQual : ℚ
  garageCars : ℚ
  totalBsmtSF : ℚ
deriving DecidableEq, Repr

/-- Positional access to a feature, as the fitted trees index columns. -/
def FeatureVector.get (v : FeatureVector) : Fin 5 → ℚ
  | ⟨0, _⟩ => v.grLivArea
  | ⟨1, _⟩ => v.yearBuilt
  | ⟨2, _⟩ => v.overallQual
  | ⟨3, _⟩ => v.garageCars
  | ⟨4, _⟩ => v.totalBsmtSF

/-- A fitted decision tree: internal nodes compare one feature against a
threshold (left on `≤`, as scikit-learn splits), leaves hold the
prediction. -/
inductive RTree where
  | leaf (v : ℚ)
  | node (f : Fin 5) (thr : ℚ) (l r : RTree)
deriving DecidableEq, Repr

/-- Prediction of a single tree on a feature vector. -/
def treePredict (x : FeatureVector) : RTree → ℚ
  | .leaf v => v
  | .node f thr l r => if x.get f ≤ thr then treePredict x l else treePredict x r

/-- The values held at a tree's leaves. -/
def leafVals : RTree → List ℚ
  | .leaf v => [v]
  | .node _ _ l r => leafVals l ++ leafVals r

/-- The fitted `RandomForestRegressor` as the estimation path sees it:
its trees and its `feature_importances_` vector. -/
structure RFModel where
  trees : List RTree
  importances : List ℚ
deriving DecidableEq, Repr

/-- `model.predict`: the mean of the per-tree predictions. -/
def forestPredict (m : RFModel) (x : FeatureVector) : ℚ :=
  (m.trees.map (treePredict x)).sum / (m.trees.length : ℚ)

/-- `v` is the average of a non-empty selection of elements of `ys`. -/
def IsAvgOf (v : ℚ) (ys : List ℚ) : Prop :=
  ∃ s : List ℚ, s ≠ [] ∧ (∀ x ∈ s, x ∈ ys) ∧ v = s.sum / (s.length : ℚ)

/-- scikit-learn's documented output shape for a regression forest fitted
on targets `ys`: at least one tree, every leaf predicts an average of
training targets, and `feature_importances_` is a non-negative vector of
length 5 summing to 1. -/
structure Fitted (m : RFModel) (ys : List ℚ) : Prop where
  treesNonempty : m.trees ≠ []
  leavesAvg : ∀ t ∈ m.trees, ∀ v ∈ leafVals t, IsAvgOf v ys
  impsLen : m.importances.length = 5
  impsNonneg : ∀ w ∈ m.importances, 0 ≤ w
  impsSum : m.importances.sum = 1

/-- Python's `int()` on a float: truncation toward zero. -/
def pyInt (q : ℚ) : ℤ :=
  if 0 ≤ q then ⌊q⌋ else -⌊-q⌋

/-- The estimation call inside the handler's `try` block: parse the three
text fields as floats, truncate the two slider values to ints, and run
`model.predict`. `Except.error ()` is the caught `ValueError`. -/
def estimateCall (m : RFModel) (areaV yearV bsmtV : Option ℚ)
    (qualS garageS : ℚ) : Except Unit ℚ :=
  match areaV, yearV, bsmtV with
  | some area, some year, some bsmt =>
      .ok (forestPredict m
        ⟨area, year, (pyInt qualS : ℚ), (pyInt garageS : ℚ), bsmt⟩)
  | _, _, _ => .error ()

/-- Minimum of a list of rationals (0 for the empty list, never used on
one). -/
def listMin : List ℚ → ℚ
  | [] => 0
  | [x] => x
  | x :: y :: t => min x (listMin (y :: t))

/-- Maximum of a list of rationals (0 for the empty list, never used on
one). -/
def listMax : List ℚ → ℚ
  | [] => 0
  | [x] => x
  | x :: y :: t => max x (listMax (y :: t))

theorem listMin_le_of_mem : ∀ {l : List ℚ} {y : ℚ}, y ∈ l → listMin l ≤ y := by
  intro l
  induction l with
  | nil => intro y h; cases h
  | cons x t ih =>
    intro y h
    cases t with
    | nil =>
      rcases List.mem_singleton.mp h with rfl
      simp [listMin]
    | cons z t' =>
      rcases List.mem_cons.mp h with rfl | hmem
      · exact min_le_left _ _
      · exact le_trans (min_le_right _ _) (ih hmem)

theorem le_listMax_of_mem : ∀ {l : List ℚ} {y : ℚ}, y ∈ l → y ≤ listMax l := by
  intro l
  induction l with
  | nil => intro y h; cases h
  | cons x t ih =>
    intro y h
    cases t with
    | nil =>
      rcases List.mem_singleton.mp h with rfl
      simp [listMax]
    | cons z t' =>
      rcases List.mem_cons.mp h with rfl | hmem
      · exact le_max_left _ _
      · exact le_trans (ih hmem) (le_max_right _ _)

theorem sum_ge_card_mul_of_lb {s : List ℚ} {lo : ℚ} (h : ∀ x ∈ s, lo ≤ x) :
    (s.length : ℚ) * lo ≤ s.sum := by
  induction s with
  | nil => simp
  | cons x t ih =>
    have hx : lo ≤ x := h x (List.mem_cons_self x t)
    have ht : (t.length : ℚ) * lo ≤ t.sum :=
      ih fun y hy => h y (List.mem_cons_of_mem x hy)
    simp only [List.length_cons, List.sum_cons]
    push_cast
    nlinarith [hx, ht]

theorem sum_le_card_mul_of_ub {s : List ℚ} {hi : ℚ} (h : ∀ x ∈ s, x ≤ hi) :
    s.sum ≤ (s.length : ℚ) * hi := by
  induction s with
  | nil => simp
  | cons x t ih =>
    have hx : x ≤ hi := h x (List.mem_cons_self x t)
    have ht : t.sum ≤ (t.length : ℚ) * hi :=
      ih fun y hy => h y (List.mem_cons_of_mem x hy)
    simp only [List.length_cons, List.sum_cons]
    push_cast
    nlinarith [hx, ht]

theorem avg_lb {s : List ℚ} {lo : ℚ} (hne : s ≠ []) (h : ∀ x ∈ s, lo ≤ x) :
    lo ≤ s.sum / (s.length : ℚ) := by
  have hlen : 0 < (s.length : ℚ) := by
    have : 0 < s.length := List.length_pos.mpr hne
    exact_mod_cast this
  rw [le_div_iff₀ hlen]
  calc lo * (s.length : ℚ) = (s.length : ℚ) * lo := by ring
  _ ≤ s.sum := sum_ge_card_mul_of_lb h

theorem avg_ub {s : List ℚ} {hi : ℚ} (hne : s ≠ []) (h : ∀ x ∈ s, x ≤ hi) :
    s.sum / (s.length : ℚ) ≤ hi := by
  have hlen : 0 < (s.length : ℚ) := by
    have : 0 < s.length := List.length_pos.mpr hne
    exact_mod_cast this
  rw [div_le_iff₀ hlen]
  calc s.sum ≤ (s.length : ℚ) * hi := sum_le_card_mul_of_ub h
  _ = hi * (s.length : ℚ) := by ring

theorem treePredict_mem_leafVals (x : FeatureVector) :
    ∀ t : RTree, treePredict x t ∈ leafVals t := by
  intro t
  induction t with
  | leaf v => simp [treePredict, leafVals]
  | node f thr l r ihl ihr =>
    simp only [treePredict, leafVals]
    by_cases h : x.get f ≤ thr
    · simp [h, List.mem_append, ihl]
    · simp [h, List.mem_append, ihr]

/-- A fitted tree's prediction is bounded below by the minimum training
target. -/
theorem treePredict_lb {m : RFModel} {ys : List ℚ} (hf : Fitted m ys)
    {t : RTree} (ht : t ∈ m.trees) (x : FeatureVector) :
    listMin ys ≤ treePredict x t := by
  obtain ⟨s, hs, hsub, hv⟩ := hf.leavesAvg t ht _ (treePredict_mem_leafVals x t)
  rw [hv]
  exact avg_lb hs fun z hz => listMin_le_of_mem (hsub z hz)

/-- A fitted tree's prediction is bounded above by the maximum training
target. -/
theorem treePredict_ub {m : RFModel} {ys : List ℚ} (hf : Fitted m ys)
    {t : RTree} (ht : t ∈ m.trees) (x : FeatureVector) :
    treePredict x t ≤ listMax ys := by
  obtain ⟨s, hs, hsub, hv⟩ := hf.leavesAvg t ht _ (treePredict_mem_leafVals x t)
  rw [hv]
  exact avg_ub hs fun z hz => le_listMax_of_mem (hsub z hz)

/-- The forest prediction of a fitted model stays within the range of the
training targets. -/
theorem forestPredict_bounds {m : RFModel} {ys : List ℚ} (hf : Fitted m ys)
    (x : FeatureVector) :
    listMin ys ≤ forestPredict m x ∧ forestPredict m x ≤ listMax ys := by
  have hmapne : m.trees.map (treePredict x) ≠ [] := by
    simpa using hf.treesNonempty
  have hlen : (m.trees.map (treePredict x)).length = m.trees.length := by
    simp
  constructor
  · unfold forestPredict
    rw [← hlen]
    refine avg_lb hmapne ?_
    intro z hz
    obtain ⟨t, ht, rfl⟩ := List.mem_map.mp hz
    exact treePredict_lb hf ht x
  · unfold forestPredict
    rw [← hlen]
    refine avg_ub hmapne ?_
    intro z hz
    obtain ⟨t, ht, rfl⟩ := List.mem_map.mp hz
    exact treePredict_ub hf ht x

/-- Insert a comma after every third character; applied to the reversed
digit list of the integer part, this yields Python's `,` grouping. -/
def group3 : List Char → List Char
  | a :: b :: c :: d :: rest => a :: b :: c :: ',' :: group3 (d :: rest)
  | l => l

/-- Round to the nearest integer, ties to even (Python's rounding for
`format`). -/
def roundHE (q : ℚ) : ℤ :=
  let f := ⌊q⌋
  let r := q - (f : ℚ)
  if r < 1/2 then f
  else if 1/2 < r then f + 1
  else if f % 2 = 0 then f else f + 1

/-- Python's `"s" * n` string repetition. -/
def pyRepeat (s : String) (n : ℤ) : String :=
  String.join (List.replicate n.toNat s)

/-- Python's `f"{x:,.2f}"`: two decimals, thousands separated by commas. -/
def pyFormatComma2 (q : ℚ) : String :=
  let cents := roundHE (|q| * 100)
  let ip := (cents / 100).toNat
  let fp := (cents % 100).toNat
  let ipStr := String.mk ((group3 (Nat.toDigits 10 ip).reverse).reverse)
  let fpStr := (if fp < 10 then "0" else "") ++ toString fp
  (if q < 0 then "-" else "") ++ ipStr ++ "." ++ fpStr

/-- Python's `f"{x:.1f}"`: one decimal place. -/
def pyFormat1 (q : ℚ) : String :=
  let tenths := roundHE (|q| * 10)
  (if q < 0 then "-" else "") ++ toString (tenths / 10) ++ "." ++ toString (tenths % 10)

/-- The five display names zipped against the importances in
`on_predict_click`. -/
def importanceNames : List String :=
  ["居住面積", "築年数", "全体の品質", "ガレージ", "地下室"]

/-- The `importance_desc` text bar chart built line by line from
`model.feature_importances_`. -/
def importanceDesc (imps : List ℚ) : String :=
  ((importanceNames.zip imps).map fun p =>
    "- **" ++ p.1 ++ "**: " ++ pyRepeat "█" (pyInt (p.2 * 20)) ++
      " (" ++ pyFormat1 (p.2 * 100) ++ "%)\n").foldl (· ++ ·) ""

/-- The markdown block assigned to `calculation_text.value` on a
successful prediction. -/
def calcMarkdown (imps : List ℚ) : String :=
  "\n### AI決定の重要度 (Feature Importance)\nランダムフォレストモデルが、どの情報を重視して価格を決定したかの割合です：\n\n" ++
    importanceDesc imps ++
    "\n\n*(注: これらは複雑に絡み合って価格を決定しています。「品質」と「広さ」が特に重要視される傾向があります)*\n            "

/-- The display state the handler mutates: `result_text.value`,
`calculation_text.value` and `calculation_text.visible`. -/
structure DisplayState where
  resultText : String
  calcText : String
  calcVisible : Bool
deriving DecidableEq, Repr

/-- The message shown when a text field fails to parse
(`except ValueError` branch). -/
def errorMessage : String := "数値を正しく入力してください"

/-- `on_predict_click`: on success, show the formatted price and the
importance breakdown; on a parse failure, show the error message and
hide the breakdown (its text is not reassigned). -/
def onPredictClick (m : RFModel) (areaV yearV bsmtV : Option ℚ)
    (qualS garageS : ℚ) (st : DisplayState) : DisplayState :=
  match estimateCall m areaV yearV bsmtV qualS garageS with
  | .ok p =>
      { resultText := "予想価格: $" ++ pyFormatComma2 p
        calcText := calcMarkdown m.importances
        calcVisible := true }
  | .error _ =>
      { resultText := errorMessage
        calcText := st.calcText
        calcVisible := false }

/-- A dataset row projected to the six columns the prediction model
uses; `none` is a missing value (NaN). -/
structure Row where
  grLivArea : Option ℚ
  yearBuilt : Option ℚ
  overallQual : Option ℚ
  garageCars : Option ℚ
  totalBsmtSF : Option ℚ
  salePrice : Option ℚ
deriving DecidableEq, Repr

/-- A row with no missing value among the six columns. -/
def isCompleteRow (r : Row) : Bool :=
  r.grLivArea.isSome && r.yearBuilt.isSome && r.overallQual.isSome &&
    r.garageCars.isSome && r.totalBsmtSF.isSome && r.salePrice.isSome

/-- `df_house[features + [SalePrice]].dropna()`: keep only complete-case
rows. -/
def dropna (df : List Row) : List Row :=
  df.filter isCompleteRow

/-- The feature part of a (complete) training row. -/
def rowX (r : Row) : FeatureVector :=
  ⟨r.grLivArea.getD 0, r.yearBuilt.getD 0, r.overallQual.getD 0,
    r.garageCars.getD 0, r.totalBsmtSF.getD 0⟩

/-- `X = pred_data[features]`. -/
def trainX (df : List Row) : List FeatureVector :=
  (dropna df).map rowX

/-- `y = pred_data[SalePrice]`. -/
def trainY (df : List Row) : List ℚ :=
  (dropna df).map fun r => r.salePrice.getD 0

/-- The regressor's constructor arguments. -/
structure RFParams where
  nEstimators : ℕ
  randomState : Option ℕ
deriving DecidableEq, Repr

/-- `RandomForestRegressor(n_estimators=100, random_state=42)`. -/
def mainParams : RFParams := ⟨100, some 42⟩

/-- The one fit performed at startup: the library fitter (a function of
the constructor arguments, the training columns and the ambient
entropy `e` consumed when no seed is fixed) applied to the
complete-case training data with the fixed seed. -/
def startupFit (fit : RFParams → List FeatureVector → List ℚ → ℕ → RFModel)
    (df : List Row) (e : ℕ) : RFModel :=
  fit mainParams (trainX df) (trainY df) e

/-- `CACHE_FILE`. -/
def cachePath : String := "assets/house_prices.csv"

/-- The module-level dataset load: try `CACHE_FILE`, fall back to the
path joined under the script's directory, else raise
`FileNotFoundError`. `fs` is the file system (`None` = absent path),
`baseDir` the script's directory. -/
def loadDataset {α : Type} (fs : String → Option α) (baseDir : String) :
    Except String α :=
  match fs cachePath with
  | some df => .ok df
  | none =>
    match fs (baseDir ++ "/assets/house_prices.csv") with
    | some df => .ok df
    | none =>
        .error ("Could not find " ++ cachePath ++ " or " ++
          (baseDir ++ "/assets/house_prices.csv"))

/-- Modelled from the spec: the deterministic weighted-sum pricing
strategy (the hand-rolled linear-formula variant of the estimator; it is
not present under `src/`, which contains only the random-forest
variant): price = area×70 + basementArea×40 + garageCars×10000 +
overallQuality×15000 + max(yearBuilt−1950, 0)×500, floored at 50000. -/
def detPrice (v : FeatureVector) : ℚ :=
  max (v.grLivArea * 70 + v.totalBsmtSF * 40 + v.garageCars * 10000 +
    v.overallQual * 15000 + max (v.yearBuilt - 1950) 0 * 500) 50000

/-- Modelled from the spec: the deterministic strategy's fixed
importance constants. -/
def detImportances : List (String × ℚ) :=
  [("area", 0.40), ("yearBuilt", 0.20), ("overallQuality", 0.25),
    ("garageCars", 0.10), ("basementArea", 0.05)]

/-- A one-leaf forest predicting 34900 (the shape a fit on a training
set whose sale prices are all 34900 produces); used as a concrete
fitted-model instance. -/
def mLow : RFModel := ⟨[.leaf 34900], [1, 0, 0, 0, 0]⟩

theorem fitted_mLow : Fitted mLow [34900] := by
  refine ⟨by simp [mLow], ?_, by simp [mLow], ?_, by simp [mLow]⟩
  · intro t ht v hv
    simp only [mLow, List.mem_singleton] at ht
    subst ht
    simp only [leafVals, List.mem_singleton] at hv
    subst hv
    exact ⟨[34900], by simp, by simp, by norm_num⟩
  · intro w hw
    simp only [mLow, List.mem_cons] at hw
    rcases hw with rfl | rfl | rfl | rfl | rfl | h
    · norm_num
    · norm_num
    · norm_num
    · norm_num
    · norm_num
    · simp at h

/-- The display state before a click used in concrete scenarios: a prior
estimate is shown and the breakdown is visible. -/
def priorState : DisplayState :=
  ⟨"予想価格: $257,000.00", "prior importance breakdown", true⟩

/-- A fit function that ignores its arguments; a concrete instance of
the library-fitter parameter. -/
def constFit : RFParams → List FeatureVector → List ℚ → ℕ → RFModel :=
  fun _ _ _ _ => mLow

/-- A one-row dataset whose only (complete) row has sale price 34900. -/
def dfOne : List Row :=
  [⟨some 334, some 1880, some 1, some 0, some 290, some 34900⟩]

/-- C2: the deterministic weighted-sum strategy (modelled from the spec)
computes price = area×70 + basementArea×40 + garageCars×10000 +
overallQuality×15000 + max(yearBuilt−1950, 0)×500 floored at 50000, its
importances are the fixed constants summing to 1, and on
area=1500, yearBuilt=2000, overallQuality=5, garageCars=2,
basementArea=800 the estimate is 257000. -/
theorem C2_deterministic_weighted_sum :
    detPrice ⟨1500, 2000, 5, 2, 800⟩ = 257000 ∧
    detPrice ⟨1500, 2000, 5, 2, 800⟩ =
      max ((1500 : ℚ) * 70 + 800 * 40 + 2 * 10000 + 5 * 15000 +
        max ((2000 : ℚ) - 1950) 0 * 500) 50000 ∧
    detImportances.map Prod.snd = [0.40, 0.20, 0.25, 0.10, 0.05] ∧
    (detImportances.map Prod.snd).sum = 1 := by
  refine ⟨?_, ?_, ?_, ?_⟩ <;> norm_num [detPrice, detImportances]

/-- C7 counterexample: increasing yearBuilt from 1900 to 1940 with the
other four features fixed leaves the deterministic price unchanged (the
max(yearBuilt−1950, 0) clamp is flat below 1950), so a single-feature
increase does not strictly increase the price. -/
theorem C7_counterexample :
    (1900 : ℚ) < 1940 ∧
    detPrice ⟨1500, 1900, 5, 2, 800⟩ = detPrice ⟨1500, 1940, 5, 2, 800⟩ := by
  constructor
  · norm_num
  · norm_num [detPrice]

/-- C7 (amended): the deterministic price is monotone (never decreases)
when any features increase; in particular increasing a single feature
with the others fixed never decreases the output price. Strictness fails
at the yearBuilt clamp and at the 50000 floor. -/
theorem C7_weak_monotonicity (a y q g b a2 y2 q2 g2 b2 : ℚ)
    (ha : a ≤ a2) (hy : y ≤ y2) (hq : q ≤ q2) (hg : g ≤ g2) (hb : b ≤ b2) :
    detPrice ⟨a, y, q, g, b⟩ ≤ detPrice ⟨a2, y2, q2, g2, b2⟩ := by
  unfold detPrice
  simp only
  have h1 : max (y - 1950) 0 * 500 ≤ max (y2 - 1950) 0 * 500 := by
    have : max (y - 1950) 0 ≤ max (y2 - 1950) 0 :=
      max_le_max (sub_le_sub_right hy 1950) le_rfl
    nlinarith [this]
  refine max_le_max ?_ le_rfl
  have h2 : a * 70 ≤ a2 * 70 := by nlinarith
  have h3 : b * 40 ≤ b2 * 40 := by nlinarith
  have h4 : g * 10000 ≤ g2 * 10000 := by nlinarith
  have h5 : q * 15000 ≤ q2 * 15000 := by nlinarith
  linarith

/-- C7 witness: a concrete joint increase of the five features. -/
theorem C7_weak_monotonicity_witness :
    detPrice ⟨1500, 1900, 5, 2, 800⟩ ≤ detPrice ⟨1600, 1960, 6, 3, 900⟩ :=
  C7_weak_monotonicity 1500 1900 5 2 800 1600 1960 6 3 900 (by norm_num)
    (by norm_num) (by norm_num) (by norm_num) (by norm_num)

/-- C1 counterexample: the handler applies no floor — a model of the
shape a fit produces (one leaf averaging a training sale price of
34900) makes the estimation entry point return 34900 < 50000 on a valid
input (area 1500, year 2000, quality 5, garage 2, basement 800). -/
theorem C1_counterexample :
    Fitted mLow [34900] ∧
    estimateCall mLow (some 1500) (some 2000) (some 800) 5 2 =
      Except.ok 34900 ∧
    ¬ ((50000 : ℚ) ≤ 34900) := by
  refine ⟨fitted_mLow, ?_, by norm_num⟩
  norm_num [estimateCall, forestPredict, mLow, treePredict]

/-- C1 (amended): the estimation entry point applies no 50000 floor; a
successful estimate is bounded below only by the minimum sale price of
the targets the model was fitted on. -/
theorem C1_no_floor_min_training_price {m : RFModel} {ys : List ℚ}
    (hf : Fitted m ys) (areaV yearV bsmtV : Option ℚ) (qualS garageS : ℚ)
    (p : ℚ) (hok : estimateCall m areaV yearV bsmtV qualS garageS = .ok p) :
    listMin ys ≤ p := by
  cases areaV with
  | none => simp [estimateCall] at hok
  | some area =>
    cases yearV with
    | none => simp [estimateCall] at hok
    | some year =>
      cases bsmtV with
      | none => simp [estimateCall] at hok
      | some bsmt =>
        simp only [estimateCall, Except.ok.injEq] at hok
        rw [← hok]
        exact (forestPredict_bounds hf _).1

/-- C1 witness: the amended bound at the concrete fitted instance. -/
theorem C1_no_floor_witness : listMin [34900] ≤ 34900 :=
  C1_no_floor_min_training_price fitted_mLow (some 1500) (some 2000)
    (some 800) 5 2 34900
    (by norm_num [estimateCall, forestPredict, mLow, treePredict])

/-- C10: a fitted forest's prediction lies between the minimum and the
maximum sale price of the complete-case training rows, for every input
feature vector — so the effective lower bound on an estimate is the
minimum training sale price. -/
theorem C10_prediction_within_training_range {m : RFModel} {df : List Row}
    (hf : Fitted m (trainY df)) (x : FeatureVector) :
    listMin (trainY df) ≤ forestPredict m x ∧
      forestPredict m x ≤ listMax (trainY df) :=
  forestPredict_bounds hf x

/-- C10 witness: the bounds at a concrete one-row dataset and fitted
model. -/
theorem C10_witness :
    listMin (trainY dfOne) ≤ forestPredict mLow ⟨1500, 2000, 5, 2, 800⟩ ∧
      forestPredict mLow ⟨1500, 2000, 5, 2, 800⟩ ≤ listMax (trainY dfOne) :=
  @C10_prediction_within_training_range mLow dfOne
    (by simpa [trainY, dropna, dfOne, isCompleteRow] using fitted_mLow)
    ⟨1500, 2000, 5, 2, 800⟩

/-- C3: the estimation call errors exactly when one of the three text
fields fails to parse; on parsed (well-typed) inputs — any rationals,
including negative areas — it always returns a value, namely the forest
prediction. -/
theorem C3_error_iff_unparsable (m : RFModel) (areaV yearV bsmtV : Option ℚ)
    (qualS garageS : ℚ) :
    (estimateCall m areaV yearV bsmtV qualS garageS = .error () ↔
      areaV = none ∨ yearV = none ∨ bsmtV = none) ∧
    ∀ area year bsmt : ℚ,
      estimateCall m (some area) (some year) (some bsmt) qualS garageS =
        .ok (forestPredict m
          ⟨area, year, (pyInt qualS : ℚ), (pyInt garageS : ℚ), bsmt⟩) := by
  constructor
  · cases areaV <;> cases yearV <;> cases bsmtV <;> simp [estimateCall]
  · intro area year bsmt
    rfl

/-- C4 counterexample: on an unparsable area the handler does not leave
the prior display unchanged — it overwrites the shown estimate with the
error message and flips the breakdown's visibility off. -/
theorem C4_counterexample :
    (onPredictClick mLow none (some 2000) (some 800) 5 2
        priorState).resultText ≠ priorState.resultText ∧
    (onPredictClick mLow none (some 2000) (some 800) 5 2
        priorState).calcVisible ≠ priorState.calcVisible := by
  constructor <;> decide

/-- C4 (amended): on an unparsable input the handler performs no partial
estimate update — it sets the result text to the fixed error message,
hides the importance breakdown, and leaves the breakdown's text as it
was; nothing derived from the failed input is shown. -/
theorem C4_error_overwrites_and_hides (m : RFModel)
    (areaV yearV bsmtV : Option ℚ) (qualS garageS : ℚ) (st : DisplayState)
    (h : areaV = none ∨ yearV = none ∨ bsmtV = none) :
    onPredictClick m areaV yearV bsmtV qualS garageS st =
      ⟨errorMessage, st.calcText, false⟩ := by
  cases areaV <;> cases yearV <;> cases bsmtV <;>
    simp_all [onPredictClick, estimateCall]

/-- C4 witness: the amended error-branch behaviour at a concrete prior
state. -/
theorem C4_error_witness :
    onPredictClick mLow none (some 2000) (some 800) 5 2 priorState =
      ⟨errorMessage, priorState.calcText, false⟩ :=
  C4_error_overwrites_and_hides mLow none (some 2000) (some 800) 5 2
    priorState (Or.inl rfl)

/-- C5: for a fitted model the five importance weights are non-negative
and sum to 1, and every successful click reports the same breakdown —
the text depends only on the model fitted once, not on the inputs or the
prior state. -/
theorem C5_importances_constant {m : RFModel} {ys : List ℚ}
    (hf : Fitted m ys) (a y b qs gs a2 y2 b2 qs2 gs2 : ℚ)
    (st st2 : DisplayState) :
    m.importances.length = 5 ∧
    (∀ w ∈ m.importances, 0 ≤ w) ∧
    m.importances.sum = 1 ∧
    (onPredictClick m (some a) (some y) (some b) qs gs st).calcText =
      calcMarkdown m.importances ∧
    (onPredictClick m (some a) (some y) (some b) qs gs st).calcText =
      (onPredictClick m (some a2) (some y2) (some b2) qs2 gs2 st2).calcText :=
  ⟨hf.impsLen, hf.impsNonneg, hf.impsSum, rfl, rfl⟩

/-- C5 witness: the invariants at the concrete fitted instance and two
different clicks. -/
theorem C5_witness :
    mLow.importances.length = 5 ∧
    (∀ w ∈ mLow.importances, 0 ≤ w) ∧
    mLow.importances.sum = 1 ∧
    (onPredictClick mLow (some 1500) (some 2000) (some 800) 5 2
        priorState).calcText = calcMarkdown mLow.importances ∧
    (onPredictClick mLow (some 1500) (some 2000) (some 800) 5 2
        priorState).calcText =
      (onPredictClick mLow (some 100) (some 1960) (some 0) 1 0
          ⟨"", "", false⟩).calcText :=
  C5_importances_constant fitted_mLow 1500 2000 800 5 2 100 1960 0 1 0
    priorState ⟨"", "", false⟩

/-- C6: the training set handed to the one startup fit is exactly the
complete-case rows — a row enters `pred_data` iff it is a dataset row
with none of the six columns missing; the selection is a sublist (no
row is fabricated or reordered) and the fitted X/y columns are the
features and sale prices of exactly those rows. -/
theorem C6_training_complete_case (df : List Row) (r : Row) :
    (r ∈ dropna df ↔
      r ∈ df ∧ r.grLivArea ≠ none ∧ r.yearBuilt ≠ none ∧
        r.overallQual ≠ none ∧ r.garageCars ≠ none ∧
        r.totalBsmtSF ≠ none ∧ r.salePrice ≠ none) ∧
    (dropna df).Sublist df ∧
    trainX df = (dropna df).map rowX ∧
    trainY df = (dropna df).map (fun r2 => r2.salePrice.getD 0) := by
  refine ⟨?_, ?_, rfl, rfl⟩
  · simp [dropna, List.mem_filter, isCompleteRow,
      Option.isSome_iff_ne_none, and_assoc]
  · unfold dropna
    exact List.filter_sublist df

/-- C8: with the seed fixed at construction (`random_state=42`), two
startup fits on the same dataset yield identical importances and
identical predictions on every input, whatever ambient entropy each
fit consumes — for any library fitter that is reproducible once a seed
is supplied. -/
theorem C8_fixed_seed_determinism
    (fit : RFParams → List FeatureVector → List ℚ → ℕ → RFModel)
    (hdet : ∀ (p : RFParams) (X : List FeatureVector) (ys : List ℚ)
      (e e2 : ℕ), p.randomState.isSome → fit p X ys e = fit p X ys e2)
    (df : List Row) (e e2 : ℕ) :
    (startupFit fit df e).importances =
      (startupFit fit df e2).importances ∧
    ∀ x, forestPredict (startupFit fit df e) x =
      forestPredict (startupFit fit df e2) x := by
  have h : startupFit fit df e = startupFit fit df e2 :=
    hdet mainParams (trainX df) (trainY df) e e2 (by simp [mainParams])
  rw [h]
  exact ⟨rfl, fun _ => rfl⟩

/-- C8 witness: determinism at a concrete fitter and two entropy
values. -/
theorem C8_witness :
    (startupFit constFit [] 0).importances =
      (startupFit constFit [] 1).importances ∧
    ∀ x, forestPredict (startupFit constFit [] 0) x =
      forestPredict (startupFit constFit [] 1) x :=
  C8_fixed_seed_determinism constFit (fun _ _ _ _ _ _ => rfl) [] 0 1

/-- C9: the startup load succeeds iff the CSV exists at the fixed
relative path or at the fallback path under the script's directory; the
relative path is preferred, and when both are absent the load is the
fatal `FileNotFoundError` with no dataset produced. -/
theorem C9_dataset_load_fallback {α : Type} (fs : String → Option α)
    (baseDir : String) :
    ((∃ df, loadDataset fs baseDir = .ok df) ↔
      (fs cachePath).isSome ∨
        (fs (baseDir ++ "/assets/house_prices.csv")).isSome) ∧
    (∀ df, fs cachePath = some df → loadDataset fs baseDir = .ok df) ∧
    (∀ df, fs cachePath = none →
      fs (baseDir ++ "/assets/house_prices.csv") = some df →
      loadDataset fs baseDir = .ok df) ∧
    (fs cachePath = none →
      fs (baseDir ++ "/assets/house_prices.csv") = none →
      loadDataset fs baseDir =
        .error ("Could not find " ++ cachePath ++ " or " ++
          (baseDir ++ "/assets/house_prices.csv"))) := by
  rcases h1 : fs cachePath with _ | df1 <;>
    rcases h2 : fs (baseDir ++ "/assets/house_prices.csv") with _ | df2 <;>
      simp [loadDataset, h1, h2]
